import Mathlib

/-!
Shallow embedding of the reth consensus crate
(crates/consensus/consensus/src/lib.rs), of the trie error conversions
(crates/evm/execution-errors/src/trie.rs) and of the provider error type
(crates/storage/errors/src/provider.rs), together with theorems settling
the specification claims about them.

External primitive types from reth_primitives / alloy (256-bit words,
bloom filters, addresses, ...) are not part of the sources; they are
modelled as natural numbers or small structures, which is faithful for
every claim proved here (the claims never depend on bit-level layout).
-/

/-- Modelled from the spec: a 256-bit content digest (external type
`B256` from alloy_primitives). Bit width is immaterial to every claim,
so it is modelled as a natural number. -/
abbrev B256 := Nat

/-- Modelled from the spec: a 2048-bit bloom filter (external type
`Bloom`), modelled as a natural number. -/
abbrev Bloom := Nat

/-- Modelled from the spec: a block hash, an alias of `B256`. -/
abbrev BlockHash := B256

/-- Modelled from the spec: a block number (`u64`). -/
abbrev BlockNumber := Nat

/-- Modelled from the spec: a 256-bit unsigned integer (`U256`). -/
abbrev U256 := Nat

/-- Modelled from the spec: a 160-bit account address. -/
abbrev Address := Nat

/-- Modelled from the spec: a transaction number (`u64`). -/
abbrev TxNumber := Nat

/-- Modelled from the spec: the `GotExpected` diagnostic primitive, an
immutable pair of the observed and the expected value of a mismatch. -/
structure GotExpected (α : Type) where
  got : α
  expected : α
deriving DecidableEq, Repr

/-- Modelled from the spec: `GotExpectedBoxed` is `GotExpected` behind a
heap indirection for large payloads; the indirection is memory layout
only, the payload is identical, so it is modelled as the same pair. -/
abbrev GotExpectedBoxed (α : Type) := GotExpected α

/-- Modelled from the spec: rendering of the external `GotExpected`
diagnostic value, which reports both the observed and the expected
value. -/
def GotExpected.render (g : GotExpected Nat) : String :=
  "got " ++ toString g.got ++ ", expected " ++ toString g.expected

/-- Modelled from the spec: the external per-transaction consensus
violation taxonomy (`InvalidTransactionError` from reth_primitives),
kept abstract as a tagged value. -/
structure InvalidTransactionError where
  code : Nat
deriving DecidableEq, Repr

/-- Modelled from the spec: the absolute gas-limit floor
(`MINIMUM_GAS_LIMIT` constant of reth_primitives). -/
def MINIMUM_GAS_LIMIT : Nat := 5000

/-- The `ConsensusError` enumeration, translated variant for variant
from crates/consensus/consensus/src/lib.rs. -/
inductive ConsensusError where
  | HeaderGasUsedExceedsGasLimit (gas_used : Nat) (gas_limit : Nat)
  | BlockGasUsed (gas : GotExpected Nat) (gas_spent_by_tx : List (Nat × Nat))
  | BodyOmmersHashDiff (g : GotExpectedBoxed B256)
  | BodyStateRootDiff (g : GotExpectedBoxed B256)
  | BodyTransactionRootDiff (g : GotExpectedBoxed B256)
  | BodyReceiptRootDiff (g : GotExpectedBoxed B256)
  | BodyBloomLogDiff (g : GotExpectedBoxed Bloom)
  | BodyWithdrawalsRootDiff (g : GotExpectedBoxed B256)
  | BodyRequestsRootDiff (g : GotExpectedBoxed B256)
  | BlockKnown (hash : BlockHash) (number : BlockNumber)
  | ParentUnknown (hash : BlockHash)
  | ParentBlockNumberMismatch (parent_block_number : BlockNumber) (block_number : BlockNumber)
  | ParentHashMismatch (g : GotExpectedBoxed B256)
  | TimestampIsInFuture (timestamp : Nat) (present_timestamp : Nat)
  | BaseFeeMissing
  | TransactionSignerRecoveryError
  | ExtraDataExceedsMax (len : Nat)
  | TheMergeDifficultyIsNotZero
  | TheMergeNonceIsNotZero
  | TheMergeOmmerRootIsNotEmpty
  | WithdrawalsRootMissing
  | RequestsRootMissing
  | WithdrawalsRootUnexpected
  | RequestsRootUnexpected
  | BodyWithdrawalsMissing
  | BodyRequestsMissing
  | BlobGasUsedMissing
  | BlobGasUsedUnexpected
  | ExcessBlobGasMissing
  | ExcessBlobGasUnexpected
  | ParentBeaconBlockRootMissing
  | ParentBeaconBlockRootUnexpected
  | BlobGasUsedExceedsMaxBlobGasPerBlock (blob_gas_used : Nat) (max_blob_gas_per_block : Nat)
  | BlobGasUsedNotMultipleOfBlobGasPerBlob (blob_gas_used : Nat) (blob_gas_per_blob : Nat)
  | ExcessBlobGasNotMultipleOfBlobGasPerBlob (excess_blob_gas : Nat) (blob_gas_per_blob : Nat)
  | BlobGasUsedDiff (g : GotExpected Nat)
  | InvalidTransaction (e : InvalidTransactionError)
  | BaseFeeDiff (g : GotExpected Nat)
  | ExcessBlobGasDiff (diff : GotExpected Nat) (parent_excess_blob_gas : Nat) (parent_blob_gas_used : Nat)
  | GasLimitInvalidIncrease (parent_gas_limit : Nat) (child_gas_limit : Nat)
  | GasLimitInvalidMinimum (child_gas_limit : Nat)
  | GasLimitInvalidDecrease (parent_gas_limit : Nat) (child_gas_limit : Nat)
  | TimestampIsInPast (parent_timestamp : Nat) (timestamp : Nat)
deriving DecidableEq, Repr

/-- Modelled from the spec: the external Debug rendering of the
per-transaction gas list (`Vec<(u64, u64)>`). -/
def renderPairList (l : List (Nat × Nat)) : String :=
  "[" ++ String.intercalate ", "
    (l.map (fun p => "(" ++ toString p.1 ++ ", " ++ toString p.2 ++ ")")) ++ "]"

/-- The handwritten `impl fmt::Display for ConsensusError`, translated
arm for arm from crates/consensus/consensus/src/lib.rs lines 349-451.
Note that several Diff arms of the source render only the `got` field of
the payload. -/
def ConsensusError.display : ConsensusError → String
  | .HeaderGasUsedExceedsGasLimit gas_used gas_limit =>
      "block used gas (" ++ toString gas_used ++ ") is greater than gas limit (" ++
        toString gas_limit ++ ")"
  | .BlockGasUsed gas gas_spent_by_tx =>
      "block gas used mismatch: " ++ gas.render ++ "; gas spent by each transaction: " ++
        renderPairList gas_spent_by_tx
  | .BodyOmmersHashDiff ommer_hashes =>
      "mismatched block ommer hash: " ++ toString ommer_hashes.got
  | .BodyStateRootDiff block_state_roots =>
      "mismatched block state root: " ++ toString block_state_roots.got
  | .BodyTransactionRootDiff transaction_roots =>
      "mismatched block transaction root: " ++ toString transaction_roots.got
  | .BodyReceiptRootDiff receipt_roots =>
      "mismatched block requests root: " ++ toString receipt_roots.got
  | .BodyBloomLogDiff bloom_filters =>
      "header bloom filter mismatch: " ++ toString bloom_filters.got
  | .BodyWithdrawalsRootDiff withdrawal_roots =>
      "mismatched block withdrawals root: " ++ toString withdrawal_roots.got
  | .BodyRequestsRootDiff block_requests_roots =>
      "mismatched block requests root: " ++ toString block_requests_roots.got
  | .BlockKnown hash number =>
      "block with [hash=" ++ toString hash ++ ", number=" ++ toString number ++
        "] is already known"
  | .ParentUnknown hash =>
      "block parent [hash=" ++ toString hash ++ "] is not known"
  | .ParentBlockNumberMismatch parent_block_number block_number =>
      "block number " ++ toString block_number ++ " does not match parent block number " ++
        toString parent_block_number
  | .ParentHashMismatch parent_hashes =>
      "mismatched parent hash: " ++ toString parent_hashes.got
  | .TimestampIsInFuture timestamp present_timestamp =>
      "block timestamp " ++ toString timestamp ++
        " is in the future compared to our clock time " ++ toString present_timestamp
  | .BaseFeeMissing => "base fee missing"
  | .TransactionSignerRecoveryError => "transaction signer recovery error"
  | .ExtraDataExceedsMax len =>
      "extra data " ++ toString len ++ " exceeds max length"
  | .TheMergeDifficultyIsNotZero => "difficulty after merge is not zero"
  | .TheMergeNonceIsNotZero => "nonce after merge is not zero"
  | .TheMergeOmmerRootIsNotEmpty => "ommer root after merge is not empty"
  | .WithdrawalsRootMissing => "missing withdrawals root"
  | .RequestsRootMissing => "missing requests root"
  | .WithdrawalsRootUnexpected => "unexpected withdrawals root"
  | .RequestsRootUnexpected => "unexpected requests root"
  | .BodyWithdrawalsMissing => "missing withdrawals"
  | .BodyRequestsMissing => "missing requests"
  | .BlobGasUsedMissing => "missing blob gas used"
  | .BlobGasUsedUnexpected => "unexpected blob gas used"
  | .ExcessBlobGasMissing => "missing excess blob gas"
  | .ExcessBlobGasUnexpected => "unexpected excess blob gas"
  | .ParentBeaconBlockRootMissing => "missing parent beacon block root"
  | .ParentBeaconBlockRootUnexpected => "unexpected parent beacon block root"
  | .BlobGasUsedExceedsMaxBlobGasPerBlock blob_gas_used max_blob_gas_per_block =>
      "blob gas used " ++ toString blob_gas_used ++ " exceeds maximum allowance " ++
        toString max_blob_gas_per_block
  | .BlobGasUsedNotMultipleOfBlobGasPerBlob blob_gas_used blob_gas_per_blob =>
      "blob gas used " ++ toString blob_gas_used ++
        " is not a multiple of blob gas per blob " ++ toString blob_gas_per_blob
  | .ExcessBlobGasNotMultipleOfBlobGasPerBlob excess_blob_gas blob_gas_per_blob =>
      "excess blob gas " ++ toString excess_blob_gas ++
        " is not a multiple of blob gas per blob " ++ toString blob_gas_per_blob
  | .BlobGasUsedDiff blob_gas =>
      "blob gas used mismatch: " ++ toString blob_gas.got
  | .InvalidTransaction _ => "invalid transaction"
  | .BaseFeeDiff block_base_fee =>
      "block base fee mismatch: " ++ block_base_fee.render
  | .ExcessBlobGasDiff diff parent_excess_blob_gas parent_blob_gas_used =>
      "invalid excess blob gas: " ++ diff.render ++ "; parent excess blob gas: " ++
        toString parent_excess_blob_gas ++ ", parent blob gas used: " ++
        toString parent_blob_gas_used
  | .GasLimitInvalidIncrease parent_gas_limit child_gas_limit =>
      "child gas_limit " ++ toString child_gas_limit ++ " max increase is " ++
        toString parent_gas_limit ++ "/1024"
  | .GasLimitInvalidMinimum child_gas_limit =>
      "child gas limit " ++ toString child_gas_limit ++
        " is below the minimum allowed limit (" ++ toString MINIMUM_GAS_LIMIT ++ ")"
  | .GasLimitInvalidDecrease parent_gas_limit child_gas_limit =>
      "child gas_limit " ++ toString child_gas_limit ++ " max decrease is " ++
        toString parent_gas_limit ++ "/1024"
  | .TimestampIsInPast parent_timestamp timestamp =>
      "block timestamp " ++ toString timestamp ++
        " is in the past compared to the parent timestamp " ++ toString parent_timestamp

/-- The `ConsensusError::is_state_root_error` predicate, translated from
crates/consensus/consensus/src/lib.rs lines 454-458
(`matches!(self, Self::BodyStateRootDiff(_))`). -/
def ConsensusError.is_state_root_error : ConsensusError → Bool
  | .BodyStateRootDiff _ => true
  | _ => false

/-- Modelled from the spec: the raw block header fields listed in the
data model (number, gas, timestamp, fee, phase-gated fields, parent
linkage). The external `Header` type lives in reth_primitives. -/
structure Header where
  number : BlockNumber
  gas_used : Nat
  gas_limit : Nat
  timestamp : Nat
  base_fee_per_gas : Option Nat
  extra_data : List Nat
  difficulty : U256
  nonce : Nat
  ommers_hash : B256
  withdrawals_root : Option B256
  requests_root : Option B256
  blob_gas_used : Option Nat
  excess_blob_gas : Option Nat
  parent_beacon_block_root : Option B256
  parent_hash : B256
deriving DecidableEq, Repr

/-- Modelled from the spec: a `SealedHeader` is a header together with
its content-derived hash, computed once and cached; the hash is
authoritative for identity. -/
structure SealedHeader where
  header : Header
  hash : B256
deriving DecidableEq, Repr

/-- Modelled from the spec: the rendering of a sealed header, which is
its identity; the hash is authoritative for identity, so the rendering
carries the hash (and the block number for readability). -/
def SealedHeader.display (h : SealedHeader) : String :=
  "SealedHeader(number=" ++ toString h.header.number ++ ", hash=" ++ toString h.hash ++ ")"

/-- Modelled from the spec: a transaction, opaque at this interface. -/
structure Transaction where
  payload : Nat
deriving DecidableEq, Repr

/-- Modelled from the spec: a per-transaction execution outcome,
supplied only as post-execution validation input. -/
structure Receipt where
  payload : Nat
deriving DecidableEq, Repr

/-- Modelled from the spec: an EIP-7685 protocol-level request object. -/
structure Request where
  payload : Nat
deriving DecidableEq, Repr

/-- Modelled from the spec: a withdrawal object of the block body. -/
structure Withdrawal where
  payload : Nat
deriving DecidableEq, Repr

/-- Modelled from the spec: a `SealedBlock` is a sealed header plus the
block body (transactions, ommers, withdrawals, requests). -/
structure SealedBlock where
  header : SealedHeader
  transactions : List Transaction
  ommers : List Header
  withdrawals : Option (List Withdrawal)
  requests : Option (List Request)
deriving DecidableEq, Repr

/-- Modelled from the spec: a `BlockWithSenders` is a sealed block
annotated with one recovered sender address per transaction. -/
structure BlockWithSenders where
  block : SealedBlock
  senders : List Address
deriving DecidableEq, Repr

/-- The `PostExecutionInput` passed to `validate_block_post_execution`,
translated from crates/consensus/consensus/src/lib.rs lines 36-48. -/
structure PostExecutionInput where
  receipts : List Receipt
  requests : List Request
deriving DecidableEq, Repr

/-- `PostExecutionInput::new`, translated from the source. -/
def PostExecutionInput.new (receipts : List Receipt) (requests : List Request) :
    PostExecutionInput :=
  { receipts := receipts, requests := requests }

/-- The `HeaderConsensusError` pair of a consensus error and the sealed
header it pertains to, translated from
crates/consensus/consensus/src/lib.rs lines 460-468. -/
structure HeaderConsensusError where
  consensus_error : ConsensusError
  sealed_header : SealedHeader
deriving DecidableEq, Repr

/-- `HeaderConsensusError::new`, translated from the source. -/
def HeaderConsensusError.new (consensus_error : ConsensusError)
    (sealed_header : SealedHeader) : HeaderConsensusError :=
  { consensus_error := consensus_error, sealed_header := sealed_header }

/-- The handwritten `impl fmt::Display for HeaderConsensusError`,
translated from crates/consensus/consensus/src/lib.rs lines 483-489. -/
def HeaderConsensusError.display (e : HeaderConsensusError) : String :=
  "Consensus error: " ++ e.consensus_error.display ++ ", Invalid header: " ++
    e.sealed_header.display

/-- The `Consensus` trait: the five required operations a consensus
implementation must provide, translated from
crates/consensus/consensus/src/lib.rs lines 50-128. A trait value is a
record of its operations; `validate_header_range` is the provided
default method, defined below over any such record. -/
structure Consensus where
  validate_header : SealedHeader → Except ConsensusError Unit
  validate_header_against_parent :
    SealedHeader → SealedHeader → Except ConsensusError Unit
  validate_header_with_total_difficulty :
    Header → U256 → Except ConsensusError Unit
  validate_block_pre_execution : SealedBlock → Except ConsensusError Unit
  validate_block_post_execution :
    BlockWithSenders → PostExecutionInput → Except ConsensusError Unit

/-- The loop body of `validate_header_range`: walk the remaining headers
keeping the current parent, validating each child standalone and then
against the parent, stopping at the first failure (the `for child in
remaining_headers` loop of the source, with `parent = child` as the
recursive step). -/
def validate_range_go (c : Consensus) :
    SealedHeader → List SealedHeader → Except HeaderConsensusError Unit
  | _, [] => .ok ()
  | parent, child :: rest =>
    match c.validate_header child with
    | .error e => .error (HeaderConsensusError.new e child)
    | .ok _ =>
      match c.validate_header_against_parent child parent with
      | .error e => .error (HeaderConsensusError.new e child)
      | .ok _ => validate_range_go c child rest

/-- The provided `Consensus::validate_header_range` default method,
translated from crates/consensus/consensus/src/lib.rs lines 79-92:
`split_first` the sequence, validate the initial header standalone, then
run the loop over the remaining headers. -/
def Consensus.validate_header_range (c : Consensus) (headers : List SealedHeader) :
    Except HeaderConsensusError Unit :=
  match headers with
  | [] => .ok ()
  | initial_header :: remaining_headers =>
    match c.validate_header initial_header with
    | .error e => .error (HeaderConsensusError.new e initial_header)
    | .ok _ => validate_range_go c initial_header remaining_headers

/-- One invocation of a contract check made by the range algorithm:
either a standalone `validate_header` call or a
`validate_header_against_parent` call. Used to instrument the range
algorithm and reason about which headers are ever touched. -/
inductive ConsensusCall where
  | standalone (h : SealedHeader)
  | against_parent (child : SealedHeader) (parent : SealedHeader)
deriving DecidableEq, Repr

/-- Instrumented loop of `validate_header_range`: same control flow as
`validate_range_go`, additionally returning the exact sequence of
contract calls made, in order. -/
def validate_range_go_calls (c : Consensus) :
    SealedHeader → List SealedHeader →
      Except HeaderConsensusError Unit × List ConsensusCall
  | _, [] => (.ok (), [])
  | parent, child :: rest =>
    match c.validate_header child with
    | .error e => (.error (HeaderConsensusError.new e child), [.standalone child])
    | .ok _ =>
      match c.validate_header_against_parent child parent with
      | .error e =>
          (.error (HeaderConsensusError.new e child),
            [.standalone child, .against_parent child parent])
      | .ok _ =>
        let r := validate_range_go_calls c child rest
        (r.1, .standalone child :: .against_parent child parent :: r.2)

/-- Instrumented `validate_header_range`: same control flow as
`Consensus.validate_header_range`, additionally returning the exact
sequence of contract calls made, in order. -/
def validate_header_range_calls (c : Consensus) (headers : List SealedHeader) :
    Except HeaderConsensusError Unit × List ConsensusCall :=
  match headers with
  | [] => (.ok (), [])
  | initial_header :: remaining_headers =>
    match c.validate_header initial_header with
    | .error e => (.error (HeaderConsensusError.new e initial_header), [.standalone initial_header])
    | .ok _ =>
      let r := validate_range_go_calls c initial_header remaining_headers
      (r.1, .standalone initial_header :: r.2)

/-- Modelled from the spec: a shared reference `&C` to a value, an
ownership wrapper with no behaviour of its own. -/
structure Ref (α : Type) where
  value : α

/-- Modelled from the spec: a reference-counted handle `Arc<C>`; the
count is memory management only, behaviourally it is the held value. -/
structure Arc (α : Type) where
  value : α

/-- The `auto_impl(&, ...)` generated implementation of `Consensus` for
a shared reference (crates/consensus/consensus/src/lib.rs line 51):
every operation forwards to the referenced implementation. -/
def Consensus.ref_impl (r : Ref Consensus) : Consensus where
  validate_header := fun header => r.value.validate_header header
  validate_header_against_parent := fun header parent =>
    r.value.validate_header_against_parent header parent
  validate_header_with_total_difficulty := fun header total_difficulty =>
    r.value.validate_header_with_total_difficulty header total_difficulty
  validate_block_pre_execution := fun block =>
    r.value.validate_block_pre_execution block
  validate_block_post_execution := fun block input =>
    r.value.validate_block_post_execution block input

/-- The `auto_impl(..., Arc)` generated implementation of `Consensus`
for a reference-counted handle (crates/consensus/consensus/src/lib.rs
line 51): every operation forwards to the held implementation. -/
def Consensus.arc_impl (a : Arc Consensus) : Consensus where
  validate_header := fun header => a.value.validate_header header
  validate_header_against_parent := fun header parent =>
    a.value.validate_header_against_parent header parent
  validate_header_with_total_difficulty := fun header total_difficulty =>
    a.value.validate_header_with_total_difficulty header total_difficulty
  validate_block_pre_execution := fun block =>
    a.value.validate_block_pre_execution block
  validate_block_post_execution := fun block input =>
    a.value.validate_block_post_execution block input

/-- Boolean success test on an `Except` result (used to state the
chain-passing hypotheses of the range claims). -/
def exceptOk {ε α : Type} : Except ε α → Bool
  | .ok _ => true
  | .error _ => false

/-- The chain-passing condition of the range claims: starting from a
given parent, every listed child passes `validate_header` standalone and
`validate_header_against_parent` against its immediate predecessor. -/
def pairs_pass (c : Consensus) : SealedHeader → List SealedHeader → Bool
  | _, [] => true
  | parent, child :: rest =>
    exceptOk (c.validate_header child) &&
      exceptOk (c.validate_header_against_parent child parent) &&
      pairs_pass c child rest

/-- The full hypothesis of the success claim on `validate_header_range`:
the first header (when any) passes `validate_header`, and every adjacent
pair passes both checks. -/
def range_chain_passes (c : Consensus) : List SealedHeader → Bool
  | [] => true
  | first :: rest => exceptOk (c.validate_header first) && pairs_pass c first rest

/-- Modelled from the spec: the external database error taxonomy
(`DatabaseError` of reth_storage_errors::db, whose source is not part of
this tree), kept abstract as a tagged value. -/
structure DatabaseError where
  code : Nat
deriving DecidableEq, Repr

/-- Modelled from the spec: the rendering of the external database
error. -/
def DatabaseError.render (e : DatabaseError) : String :=
  "database error " ++ toString e.code

/-- Modelled from the spec: the external RLP decoding error
(`alloy_rlp::Error`), kept abstract as its message. -/
structure RlpError where
  message : String
deriving DecidableEq, Repr

/-- Modelled from the spec: the rendering of the external RLP error. -/
def RlpError.render (e : RlpError) : String :=
  e.message

/-- Modelled from the spec: a nibble path into the trie
(`nybbles::Nibbles`), external, modelled as the list of nibbles. -/
abbrev Nibbles := List Nat

/-- Modelled from the spec: the external Debug rendering of a nibble
path. -/
def renderNibbles (n : Nibbles) : String :=
  "[" ++ String.intercalate ", " (n.map toString) ++ "]"

/-- Modelled from the spec: the storage lock error of the storage layer
(`StorageLockError`, source not part of this tree), abstract. -/
structure StorageLockError where
  message : String
deriving DecidableEq, Repr

/-- Modelled from the spec: the unified storage writer error of the
storage layer (`UnifiedStorageWriterError`, source not part of this
tree), abstract. -/
structure UnifiedStorageWriterError where
  message : String
deriving DecidableEq, Repr

/-- Modelled from the spec: the static file segment enumeration
(`StaticFileSegment`, external). -/
inductive StaticFileSegment where
  | Headers
  | Transactions
  | Receipts
deriving DecidableEq, Repr

/-- Modelled from the spec: a filesystem path (`PathBuf`), abstract. -/
abbrev PathBuf := String

/-- Either a block hash or a block number (`BlockHashOrNumber`,
external), modelled from the spec. -/
inductive BlockHashOrNumber where
  | Hash (h : B256)
  | Number (n : BlockNumber)
deriving DecidableEq, Repr

/-- Either a transaction hash or a transaction number
(`TxHashOrNumber`, external), modelled from the spec. -/
inductive TxHashOrNumber where
  | Hash (h : B256)
  | Number (n : TxNumber)
deriving DecidableEq, Repr

/-- The `RootMismatch` payload, translated from
crates/storage/errors/src/provider.rs lines 199-209. -/
structure RootMismatch where
  root : GotExpected B256
  block_number : BlockNumber
  block_hash : BlockHash
deriving DecidableEq, Repr

/-- The `ConsistentViewError` enumeration, translated from
crates/storage/errors/src/provider.rs lines 211-226. -/
inductive ConsistentViewError where
  | Syncing (best_block : GotExpected BlockNumber)
  | Inconsistent (tip : GotExpected (Option B256))
deriving DecidableEq, Repr

/-- The `ProviderError` enumeration, translated variant for variant from
crates/storage/errors/src/provider.rs lines 18-147. -/
inductive ProviderError where
  | Database (e : DatabaseError)
  | Rlp (e : RlpError)
  | FsPathError (s : String)
  | NippyJar (s : String)
  | TrieWitnessError (s : String)
  | SenderRecoveryError
  | BlockHashNotFound (h : BlockHash)
  | BlockBodyIndicesNotFound (n : BlockNumber)
  | StorageChangesetNotFound (block_number : BlockNumber) (address : Address) (storage_key : B256)
  | AccountChangesetNotFound (block_number : BlockNumber) (address : Address)
  | TotalDifficultyNotFound (n : BlockNumber)
  | HeaderNotFound (x : BlockHashOrNumber)
  | TransactionNotFound (x : TxHashOrNumber)
  | ReceiptNotFound (x : TxHashOrNumber)
  | BestBlockNotFound
  | FinalizedBlockNotFound
  | SafeBlockNotFound
  | MismatchOfTransactionAndSenderId (tx_id : TxNumber)
  | BlockBodyTransactionCount
  | CacheServiceUnavailable
  | UnknownBlockHash (h : B256)
  | StateForHashNotFound (h : B256)
  | BlockNumberForTransactionIndexNotFound
  | StateRootMismatch (m : RootMismatch)
  | UnwindStateRootMismatch (m : RootMismatch)
  | StateAtBlockPruned (n : BlockNumber)
  | UnsupportedProvider
  | MissingStaticFilePath (segment : StaticFileSegment) (path : PathBuf)
  | MissingStaticFileBlock (segment : StaticFileSegment) (n : BlockNumber)
  | MissingStaticFileTx (segment : StaticFileSegment) (t : TxNumber)
  | FinalizedStaticFile (segment : StaticFileSegment) (n : BlockNumber)
  | UnexpectedStaticFileBlockNumber (segment : StaticFileSegment) (writing : BlockNumber) (next : BlockNumber)
  | ReadOnlyStaticFileAccess
  | BlockNumberOverflow (n : U256)
  | ConsistentView (e : ConsistentViewError)
  | StorageLockError (e : StorageLockError)
  | UnifiedStorageWriterError (e : UnifiedStorageWriterError)
deriving DecidableEq, Repr

/-- The `StorageRootError` enumeration, translated from
crates/evm/execution-errors/src/trie.rs lines 43-48. (Named with a `T`
suffix in this embedding only to avoid the clash with the
`StateRootError.StorageRootError` constructor name.) -/
inductive StorageRootErrorT where
  | Database (e : DatabaseError)
deriving DecidableEq, Repr

/-- The `StateRootError` enumeration, translated from
crates/evm/execution-errors/src/trie.rs lines 11-18. -/
inductive StateRootError where
  | Database (e : DatabaseError)
  | StorageRootError (e : StorageRootErrorT)
deriving DecidableEq, Repr

/-- The `StateProofError` enumeration, translated from
crates/evm/execution-errors/src/trie.rs lines 69-76. -/
inductive StateProofError where
  | Database (e : DatabaseError)
  | Rlp (e : RlpError)
deriving DecidableEq, Repr

/-- The `TrieWitnessError` enumeration, translated from
crates/evm/execution-errors/src/trie.rs lines 101-118. -/
inductive TrieWitnessError where
  | Proof (e : StateProofError)
  | Rlp (e : RlpError)
  | MissingStorageMultiProof (h : B256)
  | MissingAccount (a : B256)
  | MissingTargetNode (n : Nibbles)
deriving DecidableEq, Repr

/-- Display of `StateProofError` (derive_more `Display`: a variant with
a single unnamed field and no format attribute delegates to the inner
rendering), from crates/evm/execution-errors/src/trie.rs line 70. -/
def StateProofError.display : StateProofError → String
  | .Database e => e.render
  | .Rlp e => e.render

/-- Display of `TrieWitnessError` (derive_more `Display` with the
per-variant format attributes of crates/evm/execution-errors/src/trie.rs
lines 102-118); `to_string` in Rust renders through this display. -/
def TrieWitnessError.to_string : TrieWitnessError → String
  | .Proof e => e.display
  | .Rlp e => e.render
  | .MissingStorageMultiProof h => "missing storage multiproof for " ++ toString h
  | .MissingAccount a => "missing account " ++ toString a
  | .MissingTargetNode n => "target node missing from proof " ++ renderNibbles n

/-- `impl From<DatabaseError> for ProviderError`, translated from
crates/storage/errors/src/provider.rs lines 169-173. -/
def ProviderError.from_database (value : DatabaseError) : ProviderError :=
  .Database value

/-- `impl From<alloy_rlp::Error> for ProviderError`, translated from
crates/storage/errors/src/provider.rs lines 175-179. -/
def ProviderError.from_rlp (value : RlpError) : ProviderError :=
  .Rlp value

/-- `impl From<StateProofError> for ProviderError`, translated from
crates/evm/execution-errors/src/trie.rs lines 92-99. -/
def ProviderError.from_state_proof (value : StateProofError) : ProviderError :=
  match value with
  | .Database error => .Database error
  | .Rlp error => .Rlp error

/-- `impl From<TrieWitnessError> for ProviderError`, translated from
crates/evm/execution-errors/src/trie.rs lines 135-139
(`Self::TrieWitnessError(value.to_string())`). -/
def providerErrorFromTrieWitness (value : TrieWitnessError) : ProviderError :=
  .TrieWitnessError value.to_string

/-- The derive_more `From<DatabaseError>` conversion into
`StateRootError` (crates/evm/execution-errors/src/trie.rs line 12,
`#[derive(..., From, ...)]` with the `Database` variant). -/
def StateRootError.from_database (e : DatabaseError) : StateRootError :=
  .Database e

/-- The derive_more `From<DatabaseError>` conversion into
`StorageRootError` (crates/evm/execution-errors/src/trie.rs line 44). -/
def StorageRootErrorT.from_database (e : DatabaseError) : StorageRootErrorT :=
  .Database e

/-- `impl From<StateRootError> for DatabaseError`, translated from
crates/evm/execution-errors/src/trie.rs lines 34-41: both variants
extract the inner database error. -/
def DatabaseError.from_state_root (err : StateRootError) : DatabaseError :=
  match err with
  | .Database e => e
  | .StorageRootError (.Database e) => e

/-- `impl From<StorageRootError> for DatabaseError`, translated from
crates/evm/execution-errors/src/trie.rs lines 61-67. -/
def DatabaseError.from_storage_root (err : StorageRootErrorT) : DatabaseError :=
  match err with
  | .Database e => e

/-- A sample implementation of the `Consensus` contract, used to witness
the range-algorithm theorems on concrete inputs: a header passes the
standalone check when its gas used is within its gas limit, and passes
the parent check when its parent hash and number link to the parent. -/
def sampleConsensus : Consensus where
  validate_header := fun h =>
    if h.header.gas_used ≤ h.header.gas_limit then .ok ()
    else .error (.HeaderGasUsedExceedsGasLimit h.header.gas_used h.header.gas_limit)
  validate_header_against_parent := fun child parent =>
    if child.header.parent_hash = parent.hash then
      if child.header.number = parent.header.number + 1 then .ok ()
      else .error (.ParentBlockNumberMismatch parent.header.number child.header.number)
    else .error (.ParentHashMismatch
      { got := child.header.parent_hash, expected := parent.hash })
  validate_header_with_total_difficulty := fun _ _ => .ok ()
  validate_block_pre_execution := fun _ => .ok ()
  validate_block_post_execution := fun _ _ => .ok ()

/-- A concrete sealed header used in witnesses. -/
def mkSampleHeader (number : Nat) (parent_hash : Nat) (hash : Nat)
    (gas_used : Nat) : SealedHeader :=
  { header :=
      { number := number
        gas_used := gas_used
        gas_limit := 30000000
        timestamp := 1700000000 + 12 * number
        base_fee_per_gas := some 7
        extra_data := []
        difficulty := 0
        nonce := 0
        ommers_hash := 11
        withdrawals_root := some 12
        requests_root := none
        blob_gas_used := some 0
        excess_blob_gas := some 0
        parent_beacon_block_root := some 13
        parent_hash := parent_hash }
    hash := hash }

/-- Witness chain: header 1. -/
def sampleHeader1 : SealedHeader := mkSampleHeader 1 100 101 21000

/-- Witness chain: header 2, child of header 1. -/
def sampleHeader2 : SealedHeader := mkSampleHeader 2 101 102 42000

/-- Witness chain: header 3, child of header 2. -/
def sampleHeader3 : SealedHeader := mkSampleHeader 3 102 103 63000

/-- Witness header failing the standalone check of `sampleConsensus`
(gas used exceeds the gas limit). -/
def sampleBadHeader : SealedHeader := mkSampleHeader 3 102 104 30000001

deriving instance DecidableEq for Except

theorem exceptOk_unit {ε : Type} {r : Except ε Unit} (h : exceptOk r = true) :
    r = .ok () := by
  cases r with
  | error e => simp [exceptOk] at h
  | ok u => cases u; rfl

theorem go_calls_fst (c : Consensus) (parent : SealedHeader) (l : List SealedHeader) :
    (validate_range_go_calls c parent l).1 = validate_range_go c parent l := by
  induction l generalizing parent with
  | nil => rfl
  | cons child rest ih =>
    rcases hv : c.validate_header child with e | u
    · simp [validate_range_go_calls, validate_range_go, hv]
    · rcases hp : c.validate_header_against_parent child parent with e | u2
      · simp [validate_range_go_calls, validate_range_go, hv, hp]
      · simp [validate_range_go_calls, validate_range_go, hv, hp, ih]

theorem range_calls_fst (c : Consensus) (headers : List SealedHeader) :
    (validate_header_range_calls c headers).1 = c.validate_header_range headers := by
  cases headers with
  | nil => rfl
  | cons initial_header remaining_headers =>
    rcases hv : c.validate_header initial_header with e | u
    · simp [validate_header_range_calls, Consensus.validate_header_range, hv]
    · simp [validate_header_range_calls, Consensus.validate_header_range, hv,
        go_calls_fst]

theorem go_ok (c : Consensus) (parent : SealedHeader) (l : List SealedHeader)
    (h : pairs_pass c parent l = true) : validate_range_go c parent l = .ok () := by
  induction l generalizing parent with
  | nil => rfl
  | cons child rest ih =>
    simp only [pairs_pass, Bool.and_eq_true] at h
    obtain ⟨⟨h1, h2⟩, h3⟩ := h
    simp [validate_range_go, exceptOk_unit h1, exceptOk_unit h2, ih child h3]

theorem go_calls_fail (c : Consensus) (prest : List SealedHeader)
    (parent hk : SealedHeader) (post : List SealedHeader) (e : ConsensusError)
    (hpre : pairs_pass c parent prest = true)
    (hfail : c.validate_header hk = .error e ∨
      (c.validate_header hk = .ok () ∧
        c.validate_header_against_parent hk (prest.getLastD parent) = .error e)) :
    validate_range_go_calls c parent (prest ++ hk :: post) =
      validate_range_go_calls c parent (prest ++ [hk]) ∧
    (validate_range_go_calls c parent (prest ++ hk :: post)).1 =
      .error (HeaderConsensusError.new e hk) := by
  induction prest generalizing parent with
  | nil =>
    rcases hfail with hv | ⟨hv, hp⟩
    · constructor <;> simp [validate_range_go_calls, hv]
    · simp only [List.getLastD] at hp
      constructor <;> simp [validate_range_go_calls, hv, hp]
  | cons q qs ih =>
    simp only [pairs_pass, Bool.and_eq_true] at hpre
    obtain ⟨⟨h1, h2⟩, h3⟩ := hpre
    have hq := exceptOk_unit h1
    have hqp := exceptOk_unit h2
    rw [List.getLastD_cons] at hfail
    obtain ⟨ihEq, ihFst⟩ := ih q h3 hfail
    constructor
    · simp only [List.cons_append, validate_range_go_calls, hq, hqp, List.append_eq]
      rw [ihEq]
    · simp only [List.cons_append, validate_range_go_calls, hq, hqp]
      exact ihFst

/-- C1: if every header before position k passes its checks (the first
standalone, each later one standalone and against its predecessor) and
the k-th header (k > 1) fails its standalone check, or passes it and
fails the parent check against the immediately preceding header, then
`validate_header_range` returns the error of the first failing check
paired with exactly the k-th header, and the sequence of contract calls
made is identical to the one made on the input truncated after the k-th
header — no check is invoked on any later header. -/
theorem validate_header_range_fail_fast (c : Consensus) (p0 hk : SealedHeader)
    (prest post : List SealedHeader) (e : ConsensusError)
    (hfirst : c.validate_header p0 = .ok ())
    (hpre : pairs_pass c p0 prest = true)
    (hfail : c.validate_header hk = .error e ∨
      (c.validate_header hk = .ok () ∧
        c.validate_header_against_parent hk (prest.getLastD p0) = .error e)) :
    c.validate_header_range (p0 :: prest ++ hk :: post) =
      .error (HeaderConsensusError.new e hk) ∧
    validate_header_range_calls c (p0 :: prest ++ hk :: post) =
      validate_header_range_calls c (p0 :: prest ++ [hk]) := by
  obtain ⟨gEq, gFst⟩ := go_calls_fail c prest p0 hk post e hpre hfail
  constructor
  · simp only [List.cons_append, Consensus.validate_header_range, hfirst]
    rw [← go_calls_fst]
    exact gFst
  · simp only [List.cons_append, validate_header_range_calls, hfirst, List.append_eq]
    rw [gEq]

/-- Witness for C1 at a concrete chain: headers 1 and 2 pass, the third
header fails standalone, a fourth valid header follows; the range fails
blaming exactly the third header and the calls made are those of the
truncated input. -/
theorem validate_header_range_fail_fast_witness :
    (sampleConsensus.validate_header sampleHeader1 = .ok () ∧
      pairs_pass sampleConsensus sampleHeader1 [sampleHeader2] = true ∧
      sampleConsensus.validate_header sampleBadHeader =
        .error (.HeaderGasUsedExceedsGasLimit 30000001 30000000)) ∧
    sampleConsensus.validate_header_range
        (sampleHeader1 :: [sampleHeader2] ++ sampleBadHeader :: [sampleHeader3]) =
      .error (HeaderConsensusError.new
        (.HeaderGasUsedExceedsGasLimit 30000001 30000000) sampleBadHeader) ∧
    validate_header_range_calls sampleConsensus
        (sampleHeader1 :: [sampleHeader2] ++ sampleBadHeader :: [sampleHeader3]) =
      validate_header_range_calls sampleConsensus
        (sampleHeader1 :: [sampleHeader2] ++ [sampleBadHeader]) :=
  ⟨⟨by decide, by decide, by decide⟩,
    validate_header_range_fail_fast sampleConsensus sampleHeader1 sampleBadHeader
      [sampleHeader2] [sampleHeader3] _ (by decide) (by decide) (Or.inl (by decide))⟩

/-- C2: at the concrete failing input `BodyStateRootDiff (got 1,
expected 2)` the handwritten Display renders only the observed value:
the rendering equals "mismatched block state root: 1" and coincides with
the rendering of the error with a different expected value 3, so the
expected value is not reproduced, contradicting the claim (and the
commented-out thiserror attributes of the source, which format the whole
got/expected payload). -/
theorem body_state_root_diff_display_drops_expected :
    (ConsensusError.BodyStateRootDiff { got := 1, expected := 2 }).display =
      "mismatched block state root: 1" ∧
    (ConsensusError.BodyStateRootDiff { got := 1, expected := 2 }).display =
      (ConsensusError.BodyStateRootDiff { got := 1, expected := 3 }).display ∧
    ({ got := 1, expected := 2 } : GotExpectedBoxed B256) ≠ { got := 1, expected := 3 } := by
  refine ⟨rfl, rfl, by decide⟩

/-- C3: whenever the chain-passing condition holds — the first header
passes `validate_header` and every child passes `validate_header` and
`validate_header_against_parent` against its immediate predecessor —
`validate_header_range` returns Ok. -/
theorem validate_header_range_ok_of_chain (c : Consensus) (headers : List SealedHeader)
    (h : range_chain_passes c headers = true) :
    c.validate_header_range headers = .ok () := by
  cases headers with
  | nil => rfl
  | cons first rest =>
    simp only [range_chain_passes, Bool.and_eq_true] at h
    obtain ⟨h1, h2⟩ := h
    simp [Consensus.validate_header_range, exceptOk_unit h1, go_ok c first rest h2]

/-- Witness for C3 at a concrete three-header chain accepted by the
sample consensus implementation. -/
theorem validate_header_range_ok_of_chain_witness :
    range_chain_passes sampleConsensus [sampleHeader1, sampleHeader2, sampleHeader3] = true ∧
    sampleConsensus.validate_header_range [sampleHeader1, sampleHeader2, sampleHeader3] =
      .ok () :=
  ⟨by decide,
    validate_header_range_ok_of_chain sampleConsensus
      [sampleHeader1, sampleHeader2, sampleHeader3] (by decide)⟩

/-- C4: on a single-element sequence the result of
`validate_header_range` is exactly the result of `validate_header` on
that header (its error, on failure, paired with that header), and the
only contract call ever made is the standalone check — the parent check
is never invoked. -/
theorem validate_header_range_singleton (c : Consensus) (h : SealedHeader) :
    c.validate_header_range [h] =
      (match c.validate_header h with
        | .ok _ => .ok ()
        | .error e => .error (HeaderConsensusError.new e h)) ∧
    (validate_header_range_calls c [h]).2 = [ConsensusCall.standalone h] := by
  rcases hv : c.validate_header h with e | u
  · exact ⟨by simp [Consensus.validate_header_range, hv],
      by simp [validate_header_range_calls, hv]⟩
  · cases u
    exact ⟨by simp [Consensus.validate_header_range, hv, validate_range_go],
      by simp [validate_header_range_calls, hv, validate_range_go_calls]⟩

/-- C5: on the empty sequence `validate_header_range` returns Ok and
makes no contract call at all. -/
theorem validate_header_range_empty (c : Consensus) :
    c.validate_header_range [] = .ok () ∧
    validate_header_range_calls c [] = (.ok (), []) :=
  ⟨rfl, rfl⟩

/-- C6: `is_state_root_error` returns true exactly on the
`BodyStateRootDiff` variant and false on every other variant. -/
theorem is_state_root_error_iff (e : ConsensusError) :
    e.is_state_root_error = true ↔
      ∃ g, e = ConsensusError.BodyStateRootDiff g := by
  cases e <;> simp [ConsensusError.is_state_root_error]

/-- C7: `HeaderConsensusError::new` stores exactly the given error and
header, and its Display rendering contains both the rendering of the
underlying consensus error and the rendering of the header identity as
substrings. -/
theorem header_consensus_error_new_spec (e : ConsensusError) (h : SealedHeader) :
    (HeaderConsensusError.new e h).consensus_error = e ∧
    (HeaderConsensusError.new e h).sealed_header = h ∧
    (∃ s t, (HeaderConsensusError.new e h).display.data =
      s ++ e.display.data ++ t) ∧
    (∃ s t, (HeaderConsensusError.new e h).display.data =
      s ++ h.display.data ++ t) := by
  refine ⟨rfl, rfl,
    ⟨"Consensus error: ".data, (", Invalid header: " ++ h.display).data, ?_⟩,
    ⟨("Consensus error: " ++ e.display ++ ", Invalid header: ").data, [], ?_⟩⟩
  · simp [HeaderConsensusError.display, HeaderConsensusError.new]
  · simp [HeaderConsensusError.display, HeaderConsensusError.new]

/-- C8: the generated `&C` and `Arc<C>` implementations of the
`Consensus` contract are transparent: every contract operation,
including the provided `validate_header_range`, returns on the wrapper
exactly what it returns on the wrapped implementation. -/
theorem consensus_auto_impl_transparent (c : Consensus) (h p : SealedHeader)
    (hdr : Header) (td : U256) (blk : SealedBlock) (bws : BlockWithSenders)
    (inp : PostExecutionInput) (headers : List SealedHeader) :
    ((Consensus.ref_impl ⟨c⟩).validate_header h = c.validate_header h ∧
      (Consensus.ref_impl ⟨c⟩).validate_header_against_parent h p =
        c.validate_header_against_parent h p ∧
      (Consensus.ref_impl ⟨c⟩).validate_header_with_total_difficulty hdr td =
        c.validate_header_with_total_difficulty hdr td ∧
      (Consensus.ref_impl ⟨c⟩).validate_block_pre_execution blk =
        c.validate_block_pre_execution blk ∧
      (Consensus.ref_impl ⟨c⟩).validate_block_post_execution bws inp =
        c.validate_block_post_execution bws inp ∧
      (Consensus.ref_impl ⟨c⟩).validate_header_range headers =
        c.validate_header_range headers) ∧
    ((Consensus.arc_impl ⟨c⟩).validate_header h = c.validate_header h ∧
      (Consensus.arc_impl ⟨c⟩).validate_header_against_parent h p =
        c.validate_header_against_parent h p ∧
      (Consensus.arc_impl ⟨c⟩).validate_header_with_total_difficulty hdr td =
        c.validate_header_with_total_difficulty hdr td ∧
      (Consensus.arc_impl ⟨c⟩).validate_block_pre_execution blk =
        c.validate_block_pre_execution blk ∧
      (Consensus.arc_impl ⟨c⟩).validate_block_post_execution bws inp =
        c.validate_block_post_execution bws inp ∧
      (Consensus.arc_impl ⟨c⟩).validate_header_range headers =
        c.validate_header_range headers) :=
  ⟨⟨rfl, rfl, rfl, rfl, rfl, rfl⟩, ⟨rfl, rfl, rfl, rfl, rfl, rfl⟩⟩

/-- C9: the provider-layer conversions preserve the failure kind: a
database error converts to the `Database` variant, an RLP error to the
`Rlp` variant, a state-proof error case-wise to the matching variant
with the same payload, and a trie-witness error to the
`TrieWitnessError` variant carrying its rendered message. -/
theorem provider_error_conversions_preserve_kind (d : DatabaseError) (r : RlpError)
    (w : TrieWitnessError) :
    ProviderError.from_database d = ProviderError.Database d ∧
    ProviderError.from_rlp r = ProviderError.Rlp r ∧
    ProviderError.from_state_proof (.Database d) = ProviderError.Database d ∧
    ProviderError.from_state_proof (.Rlp r) = ProviderError.Rlp r ∧
    providerErrorFromTrieWitness w = ProviderError.TrieWitnessError w.to_string :=
  ⟨rfl, rfl, rfl, rfl, rfl⟩

/-- C10: wrapping a database error into `StateRootError` (or
`StorageRootError`) and converting back is the identity, and the
conversion back to `DatabaseError` extracts the inner database error
from whichever variant holds it. -/
theorem database_error_round_trip (d : DatabaseError) :
    DatabaseError.from_state_root (StateRootError.from_database d) = d ∧
    DatabaseError.from_storage_root (StorageRootErrorT.from_database d) = d ∧
    DatabaseError.from_state_root (StateRootError.Database d) = d ∧
    DatabaseError.from_state_root
      (StateRootError.StorageRootError (StorageRootErrorT.Database d)) = d ∧
    DatabaseError.from_storage_root (StorageRootErrorT.Database d) = d :=
  ⟨rfl, rfl, rfl, rfl, rfl⟩
